import Mathlib

/-!
Verification of the recharge-api HTTP client wrapper.

The development shallowly embeds the shared request dispatcher
(`RechargeResource` in recharge/api/init) and the resource modules
(addresses, products, v2 discounts, v2 async batches).

Modelling conventions:
* The remote server is a list of `Response` values, consumed one per
  issued HTTP request.  An empty remainder models a request that never
  receives an answer, so results are `Option`-valued.
* Each HTTP helper returns the trace of observable effects (`Event`:
  issued requests and sleeps) together with the value the Python method
  returns.  `response.json()` is modelled as extracting the response
  body (constructor `RetValue.json`); returning the raw response object
  is `RetValue.raw`.
* Request headers are a per-client constant dictionary and are elided
  from the embedding; no claim concerns them.  Logging is a no-op
  observationally and is likewise elided.
* Python `ValueError` raised by `check_scopes` is modelled by the
  `ScopeError` component of the result; the mutable `self` is passed
  explicitly, so `check_scopes` returns the (possibly updated) state
  together with an optional error.
-/

/-- Scope strings such as "read_customers" (recharge/api/tokens TokenScope). -/
abbrev TokenScope := String

/-- An HTTP response: status code and (JSON) body text. -/
structure Response where
  status : Nat
  body : String
deriving DecidableEq

/-- The HTTP verbs the client issues. -/
inductive Verb where
  | GET | PUT | POST | DELETE
deriving DecidableEq

/-- An issued HTTP request: verb, url, optional JSON body, optional query
parameters (both opaque strings in the embedding). -/
structure Request where
  verb : Verb
  url : String
  body : Option String
  query : Option String
deriving DecidableEq

/-- Observable effects of the dispatcher: issuing a request, or a blocking
sleep of the given number of seconds (time.sleep). -/
inductive Event where
  | request : Request → Event
  | sleep : Nat → Event
deriving DecidableEq

/-- What a dispatcher call hands back to the caller: the parsed JSON body
(response.json()) or the raw response object. -/
inductive RetValue where
  | json : String → RetValue
  | raw : Response → RetValue
deriving DecidableEq

/-- Errors raised by check_scopes: ValueError "No scopes found for token."
or ValueError naming the endpoint and the missing scopes. -/
inductive ScopeError where
  | noScopesFound : ScopeError
  | missingScopes : String → List TokenScope → ScopeError
deriving DecidableEq

/-- RechargeResource.base_url. -/
def base_url : String := "https://api.rechargeapps.com"

/-- The state of a RechargeResource instance: the token scopes handed to
the constructor (None or a list) and the allow-list of already approved
endpoints (empty at construction). -/
structure RechargeResource where
  scopes : Option (List TokenScope)
  allowed_endpoints : List String
deriving DecidableEq

/-- RechargeResource.check_scopes.  Returns the updated state and an
optional error.  The Python test `if not self.scopes` is truthy both for
None and for the empty list, hence the two noScopesFound branches. -/
def check_scopes (self : RechargeResource) (endpoint : String)
    (scopes : List TokenScope) : RechargeResource × Option ScopeError :=
  if self.allowed_endpoints.contains endpoint then
    (self, none)
  else
    match self.scopes with
    | none => (self, some ScopeError.noScopesFound)
    | some tok =>
      if tok.isEmpty then
        (self, some ScopeError.noScopesFound)
      else
        let missing_scopes := scopes.filter fun s => !(tok.contains s)
        if missing_scopes.isEmpty then
          ({ self with
             allowed_endpoints := self.allowed_endpoints ++ [endpoint] }, none)
        else
          (self, some (ScopeError.missingScopes endpoint missing_scopes))

/-- RechargeResource.http_delete.  requests.delete(url, headers, json=body);
on status 429 it recurses immediately (no sleep) as self.http_delete(url),
dropping the body; otherwise it returns the raw response object. -/
def http_delete (srv : List Response) (url : String) (body : Option String) :
    List Event × Option RetValue :=
  match srv with
  | [] => ([], none)
  | r :: rest =>
    let ev := Event.request { verb := Verb.DELETE, url := url, body := body, query := none }
    if r.status = 429 then
      let k := http_delete rest url none
      (ev :: k.1, k.2)
    else
      ([ev], some (RetValue.raw r))

/-- RechargeResource.http_get.  requests.get(url, params=query, headers);
on status 429 it sleeps 1 second and recurses as self.http_get(url),
dropping the query; otherwise it returns response.json(). -/
def http_get (srv : List Response) (url : String) (query : Option String) :
    List Event × Option RetValue :=
  match srv with
  | [] => ([], none)
  | r :: rest =>
    let ev := Event.request { verb := Verb.GET, url := url, body := none, query := query }
    if r.status = 429 then
      let k := http_get rest url none
      (ev :: Event.sleep 1 :: k.1, k.2)
    else
      ([ev], some (RetValue.json r.body))

/-- RechargeResource.http_put.  requests.put(url, json=body, params=query);
on status 429 it sleeps 1 second and recurses as self.http_put(url, body),
keeping the body but dropping the query; otherwise response.json(). -/
def http_put (srv : List Response) (url : String) (body : Option String)
    (query : Option String) : List Event × Option RetValue :=
  match srv with
  | [] => ([], none)
  | r :: rest =>
    let ev := Event.request { verb := Verb.PUT, url := url, body := body, query := query }
    if r.status = 429 then
      let k := http_put rest url body none
      (ev :: Event.sleep 1 :: k.1, k.2)
    else
      ([ev], some (RetValue.json r.body))

/-- RechargeResource.http_post.  requests.post(url, json=body, params=query);
on status 429 it sleeps 1 second and recurses as self.http_post(url, body),
keeping the body but dropping the query; otherwise response.json(). -/
def http_post (srv : List Response) (url : String) (body : Option String)
    (query : Option String) : List Event × Option RetValue :=
  match srv with
  | [] => ([], none)
  | r :: rest =>
    let ev := Event.request { verb := Verb.POST, url := url, body := body, query := query }
    if r.status = 429 then
      let k := http_post rest url body none
      (ev :: Event.sleep 1 :: k.1, k.2)
    else
      ([ev], some (RetValue.json r.body))

/-- Number of HTTP requests in a trace. -/
def numRequests : List Event → Nat
  | [] => 0
  | Event.request _ :: rest => numRequests rest + 1
  | Event.sleep _ :: rest => numRequests rest

/-- Number of sleeps in a trace. -/
def numSleeps : List Event → Nat
  | [] => 0
  | Event.request _ :: rest => numSleeps rest
  | Event.sleep _ :: rest => numSleeps rest + 1

/-- The requests of a trace, in order of issue. -/
def requestsOf : List Event → List Request
  | [] => []
  | Event.request r :: rest => r :: requestsOf rest
  | Event.sleep _ :: rest => requestsOf rest

/-- Every request event of the trace other than the very first event is
immediately preceded by a sleep event: equivalently, no two request
events are adjacent, so each retry was slept before. -/
def everyRetrySlept : List Event → Bool
  | [] => true
  | [_] => true
  | Event.sleep _ :: y :: rest => everyRetrySlept (y :: rest)
  | Event.request _ :: Event.sleep m :: rest =>
    everyRetrySlept (Event.sleep m :: rest)
  | Event.request _ :: Event.request _ :: _ => false

/-- Is a returned value a parsed JSON body (as opposed to a raw response)? -/
def RetValue.isJsonBody : RetValue → Bool
  | RetValue.json _ => true
  | RetValue.raw _ => false

/-- Number of leading 429 responses of a server script. -/
def leading429 : List Response → Nat
  | [] => 0
  | r :: rest => if r.status = 429 then leading429 rest + 1 else 0

/-- First response of the script that is not a 429, if any: the response
whose value the dispatcher hands back. -/
def firstNon429 : List Response → Option Response
  | [] => none
  | r :: rest => if r.status = 429 then firstNon429 rest else some r

/-- Does a ScopeError carry (name) the list of missing scopes? -/
def ScopeError.namesMissingScopes : ScopeError → Bool
  | ScopeError.missingScopes _ _ => true
  | ScopeError.noScopesFound => false

/-- The body shared by every scope-guarded resource method:
self.check_scopes(endpoint, required_scopes) followed by the HTTP call.
A ValueError from check_scopes propagates to the caller (Except.error)
and the HTTP call is then not reached, so the trace stays empty. -/
def guarded (self : RechargeResource) (endpoint : String)
    (required_scopes : List TokenScope) (act : List Event × Option RetValue) :
    RechargeResource × List Event × Except ScopeError (Option RetValue) :=
  match check_scopes self endpoint required_scopes with
  | (s, some e) => (s, [], Except.error e)
  | (s, none) => (s, act.1, Except.ok act.2)

/-- AddressResource.object_list_key. -/
def AddressResource.object_list_key : String := "addresses"

/-- The url property of AddressResource: base_url/addresses. -/
def AddressResource.url : String := base_url ++ "/" ++ AddressResource.object_list_key

/-- AddressResource.create (addresses, POST). -/
def AddressResource.create (self : RechargeResource) (srv : List Response)
    (customer_id : String) (body : String) :
    RechargeResource × List Event × Except ScopeError (Option RetValue) :=
  guarded self "POST /customers/:customer_id/addresses" ["write_customers"]
    (http_post srv
      (base_url ++ "/customers/" ++ customer_id ++ "/" ++ AddressResource.object_list_key)
      (some body) none)

/-- AddressResource.get (addresses, GET by id). -/
def AddressResource.get (self : RechargeResource) (srv : List Response)
    (address_id : String) :
    RechargeResource × List Event × Except ScopeError (Option RetValue) :=
  guarded self ("GET " ++ AddressResource.object_list_key ++ "/:address_id")
    ["read_customers"]
    (http_get srv (AddressResource.url ++ "/" ++ address_id) none)

/-- AddressResource.update (addresses, PUT by id; body defaults to None). -/
def AddressResource.update (self : RechargeResource) (srv : List Response)
    (address_id : String) (body : Option String) :
    RechargeResource × List Event × Except ScopeError (Option RetValue) :=
  guarded self ("PUT " ++ AddressResource.object_list_key ++ "/:id")
    ["write_customers"]
    (http_put srv (AddressResource.url ++ "/" ++ address_id) body none)

/-- AddressResource.delete (addresses, DELETE by id). -/
def AddressResource.delete (self : RechargeResource) (srv : List Response)
    (address_id : String) :
    RechargeResource × List Event × Except ScopeError (Option RetValue) :=
  guarded self ("DELETE " ++ AddressResource.object_list_key ++ "/:address_id")
    ["write_customers"]
    (http_delete srv (AddressResource.url ++ "/" ++ address_id) none)

/-- AddressResource.list (addresses of a customer, GET with query). -/
def AddressResource.list (self : RechargeResource) (srv : List Response)
    (customer_id : String) (query : Option String) :
    RechargeResource × List Event × Except ScopeError (Option RetValue) :=
  guarded self ("GET /customers/:customer_id/" ++ AddressResource.object_list_key)
    ["read_customers"]
    (http_get srv
      (base_url ++ "/customers/" ++ customer_id ++ "/" ++ AddressResource.object_list_key)
      query)

/-- AddressResource.count (GET /addresses/count with query). -/
def AddressResource.count (self : RechargeResource) (srv : List Response)
    (query : Option String) :
    RechargeResource × List Event × Except ScopeError (Option RetValue) :=
  guarded self "GET /addresses/count" ["read_customers"]
    (http_get srv (AddressResource.url ++ "/count") query)

/-- AddressResource.validate.  The source issues the POST directly with no
check_scopes call, so no guard appears here. -/
def AddressResource.validate (self : RechargeResource) (srv : List Response)
    (body : String) :
    RechargeResource × List Event × Except ScopeError (Option RetValue) :=
  let p := http_post srv (AddressResource.url ++ "/validate_address") (some body) none
  (self, p.1, Except.ok p.2)

/-- AddressResource.apply_discount (POST with body). -/
def AddressResource.apply_discount (self : RechargeResource) (srv : List Response)
    (address_id : String) (body : String) :
    RechargeResource × List Event × Except ScopeError (Option RetValue) :=
  guarded self "POST /addresses/:address_id/apply_discount" ["write_discounts"]
    (http_post srv (AddressResource.url ++ "/" ++ address_id ++ "/apply_discount")
      (some body) none)

/-- AddressResource.remove_discount (POST without body). -/
def AddressResource.remove_discount (self : RechargeResource) (srv : List Response)
    (address_id : String) :
    RechargeResource × List Event × Except ScopeError (Option RetValue) :=
  guarded self "POST /addresses/:address_id/remove_discount" ["write_discounts"]
    (http_post srv (AddressResource.url ++ "/" ++ address_id ++ "/remove_discount")
      none none)

/-- ProductResource.object_list_key. -/
def ProductResource.object_list_key : String := "products"

/-- The url property of ProductResource: base_url/products. -/
def ProductResource.url : String := base_url ++ "/" ++ ProductResource.object_list_key

/-- ProductResource.create (POST /products). -/
def ProductResource.create (self : RechargeResource) (srv : List Response)
    (body : String) :
    RechargeResource × List Event × Except ScopeError (Option RetValue) :=
  guarded self "POST /products" ["write_products"]
    (http_post srv ProductResource.url (some body) none)

/-- ProductResource.get.  Note the approval endpoint string interpolates
the concrete product id. -/
def ProductResource.get (self : RechargeResource) (srv : List Response)
    (product_id : String) :
    RechargeResource × List Event × Except ScopeError (Option RetValue) :=
  guarded self ("GET /products/" ++ product_id) ["read_products"]
    (http_get srv (ProductResource.url ++ "/" ++ product_id) none)

/-- ProductResource.update (PUT by id, body required). -/
def ProductResource.update (self : RechargeResource) (srv : List Response)
    (product_id : String) (body : String) :
    RechargeResource × List Event × Except ScopeError (Option RetValue) :=
  guarded self ("PUT /products/" ++ product_id) ["write_products"]
    (http_put srv (ProductResource.url ++ "/" ++ product_id) (some body) none)

/-- ProductResource.delete (DELETE by id). -/
def ProductResource.delete (self : RechargeResource) (srv : List Response)
    (product_id : String) :
    RechargeResource × List Event × Except ScopeError (Option RetValue) :=
  guarded self ("DELETE /products/" ++ product_id) ["write_products"]
    (http_delete srv (ProductResource.url ++ "/" ++ product_id) none)

/-- ProductResource.list (GET /products with required query). -/
def ProductResource.list (self : RechargeResource) (srv : List Response)
    (query : String) :
    RechargeResource × List Event × Except ScopeError (Option RetValue) :=
  guarded self "GET /products" ["read_products"]
    (http_get srv ProductResource.url (some query))

/-- ProductResource.count (GET /products/count). -/
def ProductResource.count (self : RechargeResource) (srv : List Response) :
    RechargeResource × List Event × Except ScopeError (Option RetValue) :=
  guarded self "GET /products/count" ["read_products"]
    (http_get srv (ProductResource.url ++ "/count") none)

/-- DiscountResource.object_list_key (v2). -/
def DiscountResource.object_list_key : String := "discounts"

/-- The url property of DiscountResource: base_url/discounts.  The v2
modules dispatch through helpers written _http_get and so on; those
helpers are the shared dispatcher of the base client (spec sections 2
and 7: one shared base client, single-retry-on-429 policy), so they are
modelled by the http functions above. -/
def DiscountResource.url : String := base_url ++ "/" ++ DiscountResource.object_list_key

/-- DiscountResource.create (POST /discounts). -/
def DiscountResource.create (self : RechargeResource) (srv : List Response)
    (body : String) :
    RechargeResource × List Event × Except ScopeError (Option RetValue) :=
  guarded self ("POST /" ++ DiscountResource.object_list_key) ["write_discounts"]
    (http_post srv DiscountResource.url (some body) none)

/-- DiscountResource.get (GET by id). -/
def DiscountResource.get (self : RechargeResource) (srv : List Response)
    (discount_id : String) :
    RechargeResource × List Event × Except ScopeError (Option RetValue) :=
  guarded self ("GET /" ++ DiscountResource.object_list_key ++ "/:discount_id")
    ["read_discounts"]
    (http_get srv (DiscountResource.url ++ "/" ++ discount_id) none)

/-- DiscountResource.update (PUT by id). -/
def DiscountResource.update (self : RechargeResource) (srv : List Response)
    (discount_id : String) (body : String) :
    RechargeResource × List Event × Except ScopeError (Option RetValue) :=
  guarded self ("PUT /" ++ DiscountResource.object_list_key ++ "/:discount_id")
    ["write_discounts"]
    (http_put srv (DiscountResource.url ++ "/" ++ discount_id) (some body) none)

/-- DiscountResource.delete (DELETE by id). -/
def DiscountResource.delete (self : RechargeResource) (srv : List Response)
    (discount_id : String) :
    RechargeResource × List Event × Except ScopeError (Option RetValue) :=
  guarded self ("DELETE /" ++ DiscountResource.object_list_key ++ "/:discount_id")
    ["write_discounts"]
    (http_delete srv (DiscountResource.url ++ "/" ++ discount_id) none)

/-- DiscountResource.list (GET /discounts with optional query). -/
def DiscountResource.list (self : RechargeResource) (srv : List Response)
    (query : Option String) :
    RechargeResource × List Event × Except ScopeError (Option RetValue) :=
  guarded self ("GET /" ++ DiscountResource.object_list_key) ["read_discounts"]
    (http_get srv DiscountResource.url query)

/-- AsyncBatchResource.object_list_key (v2). -/
def AsyncBatchResource.object_list_key : String := "async_batches"

/-- The url property of AsyncBatchResource: base_url/async_batches. -/
def AsyncBatchResource.url : String :=
  base_url ++ "/" ++ AsyncBatchResource.object_list_key

/-- AsyncBatchResource.create (POST /async_batches). -/
def AsyncBatchResource.create (self : RechargeResource) (srv : List Response)
    (body : String) :
    RechargeResource × List Event × Except ScopeError (Option RetValue) :=
  guarded self ("POST /" ++ AsyncBatchResource.object_list_key) ["write_batches"]
    (http_post srv AsyncBatchResource.url (some body) none)

/-- AsyncBatchResource.create_task (POST tasks of a batch). -/
def AsyncBatchResource.create_task (self : RechargeResource) (srv : List Response)
    (batch_id : String) (body : String) :
    RechargeResource × List Event × Except ScopeError (Option RetValue) :=
  guarded self ("POST /" ++ AsyncBatchResource.object_list_key ++ "/:batch_id/tasks")
    ["write_batches"]
    (http_post srv (AsyncBatchResource.url ++ "/" ++ batch_id ++ "/tasks")
      (some body) none)

/-- AsyncBatchResource.get (GET by id). -/
def AsyncBatchResource.get (self : RechargeResource) (srv : List Response)
    (batch_id : String) :
    RechargeResource × List Event × Except ScopeError (Option RetValue) :=
  guarded self ("GET /" ++ AsyncBatchResource.object_list_key ++ "/:batch_id")
    ["read_batches"]
    (http_get srv (AsyncBatchResource.url ++ "/" ++ batch_id) none)

/-- AsyncBatchResource.list (GET /async_batches). -/
def AsyncBatchResource.list (self : RechargeResource) (srv : List Response) :
    RechargeResource × List Event × Except ScopeError (Option RetValue) :=
  guarded self ("GET /" ++ AsyncBatchResource.object_list_key) ["read_batches"]
    (http_get srv AsyncBatchResource.url none)

/-- AsyncBatchResource.list_tasks (GET tasks of a batch). -/
def AsyncBatchResource.list_tasks (self : RechargeResource) (srv : List Response)
    (batch_id : String) :
    RechargeResource × List Event × Except ScopeError (Option RetValue) :=
  guarded self ("GET /" ++ AsyncBatchResource.object_list_key ++ "/:batch_id/tasks")
    ["read_batches"]
    (http_get srv (AsyncBatchResource.url ++ "/" ++ batch_id ++ "/tasks") none)

/-- AsyncBatchResource.process (POST process, body None). -/
def AsyncBatchResource.process (self : RechargeResource) (srv : List Response)
    (batch_id : String) :
    RechargeResource × List Event × Except ScopeError (Option RetValue) :=
  guarded self ("POST /" ++ AsyncBatchResource.object_list_key ++ "/:batch_id/process")
    ["write_batches"]
    (http_post srv (AsyncBatchResource.url ++ "/" ++ batch_id ++ "/process")
      none none)

/-- Concrete responses used by witnesses and counterexamples. -/
def r200 : Response := { status := 200, body := "ok" }

/-- A rate limited response. -/
def r429 : Response := { status := 429, body := "rate limited" }

/-- A server error response. -/
def r500 : Response := { status := 500, body := "server error" }

/-- Helper: a list appended with an element contains it. -/
theorem contains_append_self (l : List String) (a : String) :
    (l ++ [a]).contains a = true := by
  have h : a ∈ l ++ [a] := List.mem_append_right l (List.mem_singleton.mpr rfl)
  exact List.elem_eq_true_of_mem h

/-- Helper: after a successful check the endpoint is in the allow-list. -/
theorem check_scopes_ok_contains (self : RechargeResource) (ep : String)
    (req : List TokenScope) (s' : RechargeResource)
    (h : check_scopes self ep req = (s', none)) :
    s'.allowed_endpoints.contains ep = true := by
  simp only [check_scopes] at h
  split at h
  next hc =>
    rw [Prod.mk.injEq] at h
    rw [← h.1]
    exact hc
  next hc =>
    split at h
    · rw [Prod.mk.injEq] at h
      exact absurd h.2 (by simp)
    · split at h
      · rw [Prod.mk.injEq] at h
        exact absurd h.2 (by simp)
      · split at h
        · rw [Prod.mk.injEq] at h
          rw [← h.1]
          exact contains_append_self _ _
        · rw [Prod.mk.injEq] at h
          exact absurd h.2 (by simp)

/-- Helper: an already approved endpoint short-circuits check_scopes. -/
theorem check_scopes_of_contains (self : RechargeResource) (ep : String)
    (req : List TokenScope) (hc : self.allowed_endpoints.contains ep = true) :
    check_scopes self ep req = (self, none) := by
  have hc' : ep ∈ self.allowed_endpoints := by simpa using hc
  simp [check_scopes, hc']

/-- Helper: check_scopes leaves the state unchanged when it errors. -/
theorem check_scopes_error_state (self : RechargeResource) (ep : String)
    (req : List TokenScope) (s' : RechargeResource) (e : ScopeError)
    (h : check_scopes self ep req = (s', some e)) : s' = self := by
  simp only [check_scopes] at h
  split at h
  · rw [Prod.mk.injEq] at h
    exact absurd h.2 (by simp)
  · split at h
    · rw [Prod.mk.injEq] at h
      exact h.1.symm
    · split at h
      · rw [Prod.mk.injEq] at h
        exact h.1.symm
      · split at h
        · rw [Prod.mk.injEq] at h
          exact absurd h.2 (by simp)
        · rw [Prod.mk.injEq] at h
          exact h.1.symm

/-- Helper: a scope-check error makes a guarded method return that error
with an empty trace, so the HTTP request is not issued. -/
theorem guarded_error {self : RechargeResource} {ep : String}
    {sc : List TokenScope} {act : List Event × Option RetValue}
    {s' : RechargeResource} {e : ScopeError}
    (h : check_scopes self ep sc = (s', some e)) :
    guarded self ep sc act = (s', [], Except.error e) := by
  simp only [guarded, h]

/-- C2 (corrected): for an endpoint not yet approved, when the token scope
list is present and non-empty and misses at least one required scope,
check_scopes errors with missingScopes naming exactly the missing ones;
and a method wrapping an HTTP request (here AddressResource.get)
propagates any check_scopes error with an empty trace, so the wrapped
request is not issued. -/
theorem missing_scopes_error_and_no_request :
    (∀ (self : RechargeResource) (ep : String) (req ts : List TokenScope),
      self.allowed_endpoints.contains ep = false →
      self.scopes = some ts → ts ≠ [] →
      (req.filter fun s => !(ts.contains s)) ≠ [] →
      check_scopes self ep req
        = (self, some (ScopeError.missingScopes ep
            (req.filter fun s => !(ts.contains s))))) ∧
    (∀ (self : RechargeResource) (srv : List Response) (address_id : String)
        (s' : RechargeResource) (e : ScopeError),
      check_scopes self ("GET " ++ AddressResource.object_list_key ++ "/:address_id")
          ["read_customers"] = (s', some e) →
      AddressResource.get self srv address_id = (s', [], Except.error e)) := by
  constructor
  · intro self ep req ts hc hs hts hm
    have hc' : ep ∉ self.allowed_endpoints := by simpa using hc
    have hm' : ¬ ∀ a ∈ req, a ∈ ts := by
      intro hall
      apply hm
      rw [List.filter_eq_nil_iff]
      intro a ha
      simp [hall a ha]
    simp [check_scopes, hc', hs, hts, hm']
  · intro self srv address_id s' e h
    exact guarded_error h

/-- C2 witness: a token holding only read_products, asked for
read_customers on an unapproved endpoint, gets missingScopes. -/
theorem missing_scopes_error_witness :
    check_scopes { scopes := some ["read_products"], allowed_endpoints := [] }
        "E" ["read_customers"]
      = ({ scopes := some ["read_products"], allowed_endpoints := [] },
         some (ScopeError.missingScopes "E"
           ((["read_customers"] : List TokenScope).filter fun s =>
             !((["read_products"] : List TokenScope).contains s)))) :=
  missing_scopes_error_and_no_request.1
    { scopes := some ["read_products"], allowed_endpoints := [] }
    "E" ["read_customers"] ["read_products"] (by decide) rfl (by decide) (by decide)

/-- C2 counterexample: with an empty token scope list the token lacks the
required scope read_customers, yet the raised error is noScopesFound,
which does not name the missing scopes. -/
theorem empty_scopes_error_names_no_scopes :
    ((["read_customers"] : List TokenScope).filter fun s =>
        !(([] : List TokenScope).contains s)) ≠ [] ∧
    check_scopes { scopes := some [], allowed_endpoints := [] } "E" ["read_customers"]
      = ({ scopes := some [], allowed_endpoints := [] },
         some ScopeError.noScopesFound) ∧
    ScopeError.namesMissingScopes ScopeError.noScopesFound = false :=
  ⟨by decide, by decide, rfl⟩

/-- C4 (confirmed): once check_scopes has approved an endpoint, a repeat
call with the same endpoint and scope list returns successfully with the
state unchanged, and does so whatever the token scopes are by then: the
allow-list alone decides, the token scopes are not re-examined. -/
theorem approved_endpoint_cached :
    ∀ (self : RechargeResource) (ep : String) (req : List TokenScope)
      (self' : RechargeResource),
      check_scopes self ep req = (self', none) →
      check_scopes self' ep req = (self', none) ∧
      ∀ alt : Option (List TokenScope),
        check_scopes { self' with scopes := alt } ep req
          = ({ self' with scopes := alt }, none) := by
  intro self ep req self' h
  have hc := check_scopes_ok_contains self ep req self' h
  exact ⟨check_scopes_of_contains self' ep req hc,
    fun alt => check_scopes_of_contains { self' with scopes := alt } ep req hc⟩

/-- C4 witness: a second check of an approved endpoint succeeds. -/
theorem approved_endpoint_cached_witness :
    check_scopes
        { scopes := some ["read_customers"],
          allowed_endpoints := ["GET addresses/:address_id"] }
        "GET addresses/:address_id" ["read_customers"]
      = ({ scopes := some ["read_customers"],
           allowed_endpoints := ["GET addresses/:address_id"] }, none) :=
  (approved_endpoint_cached
    { scopes := some ["read_customers"], allowed_endpoints := [] }
    "GET addresses/:address_id" ["read_customers"]
    { scopes := some ["read_customers"],
      allowed_endpoints := ["GET addresses/:address_id"] } (by decide)).1

/-- C9 (confirmed): with scopes None or the empty list, any check of a not
yet approved endpoint errors with noScopesFound, even for an empty
required-scope list; and whenever check_scopes errors the returned state,
allow-list included, equals the input state. -/
theorem no_scopes_error_and_cache_unchanged :
    (∀ (self : RechargeResource) (ep : String) (req : List TokenScope),
      (self.scopes = none ∨ self.scopes = some []) →
      self.allowed_endpoints.contains ep = false →
      check_scopes self ep req = (self, some ScopeError.noScopesFound)) ∧
    (∀ (self : RechargeResource) (ep : String) (req : List TokenScope)
        (s' : RechargeResource) (e : ScopeError),
      check_scopes self ep req = (s', some e) → s' = self) := by
  constructor
  · intro self ep req hs hc
    have hc' : ep ∉ self.allowed_endpoints := by simpa using hc
    rcases hs with h | h <;> simp [check_scopes, hc', h]
  · intro self ep req s' e h
    exact check_scopes_error_state self ep req s' e h

/-- C9 witness: a fresh resource with scopes None errors on an empty
required-scope list. -/
theorem no_scopes_error_witness :
    check_scopes { scopes := none, allowed_endpoints := [] } "E" []
      = ({ scopes := none, allowed_endpoints := [] },
         some ScopeError.noScopesFound) :=
  no_scopes_error_and_cache_unchanged.1
    { scopes := none, allowed_endpoints := [] } "E" [] (Or.inl rfl) rfl

/-- C10 (confirmed): once check_scopes succeeds for an endpoint, every
later check of the same endpoint succeeds for any required-scope list,
including lists of scopes the token does not hold. -/
theorem cache_keyed_by_endpoint_only :
    ∀ (self : RechargeResource) (ep : String) (s : List TokenScope)
      (self' : RechargeResource),
      check_scopes self ep s = (self', none) →
      ∀ s2 : List TokenScope, check_scopes self' ep s2 = (self', none) := by
  intro self ep s self' h s2
  exact check_scopes_of_contains self' ep s2 (check_scopes_ok_contains self ep s self' h)

/-- C10 witness: an endpoint approved under read_customers later passes a
check for write_payments, a scope the token does not hold. -/
theorem cache_keyed_witness :
    check_scopes
        { scopes := some ["read_customers"], allowed_endpoints := ["E"] } "E"
        ["write_payments"]
      = ({ scopes := some ["read_customers"], allowed_endpoints := ["E"] }, none) :=
  cache_keyed_by_endpoint_only
    { scopes := some ["read_customers"], allowed_endpoints := [] } "E"
    ["read_customers"]
    { scopes := some ["read_customers"], allowed_endpoints := ["E"] }
    (by decide) ["write_payments"]

/-- Helper: http_get on a 429 head sleeps and recurses without the query. -/
theorem http_get_cons_429 (r : Response) (rest : List Response) (url : String)
    (q : Option String) (h : r.status = 429) :
    http_get (r :: rest) url q
      = (Event.request { verb := Verb.GET, url := url, body := none, query := q }
          :: Event.sleep 1 :: (http_get rest url none).1,
         (http_get rest url none).2) := by
  simp [http_get, h]

/-- Helper: http_get on a non-429 head issues one request and returns the
parsed body. -/
theorem http_get_cons_ok (r : Response) (rest : List Response) (url : String)
    (q : Option String) (h : ¬ r.status = 429) :
    http_get (r :: rest) url q
      = ([Event.request { verb := Verb.GET, url := url, body := none, query := q }],
         some (RetValue.json r.body)) := by
  simp [http_get, h]

/-- Helper: http_put on a 429 head sleeps and recurses keeping the body,
dropping the query. -/
theorem http_put_cons_429 (r : Response) (rest : List Response) (url : String)
    (b q : Option String) (h : r.status = 429) :
    http_put (r :: rest) url b q
      = (Event.request { verb := Verb.PUT, url := url, body := b, query := q }
          :: Event.sleep 1 :: (http_put rest url b none).1,
         (http_put rest url b none).2) := by
  simp [http_put, h]

/-- Helper: http_put on a non-429 head issues one request and returns the
parsed body. -/
theorem http_put_cons_ok (r : Response) (rest : List Response) (url : String)
    (b q : Option String) (h : ¬ r.status = 429) :
    http_put (r :: rest) url b q
      = ([Event.request { verb := Verb.PUT, url := url, body := b, query := q }],
         some (RetValue.json r.body)) := by
  simp [http_put, h]

/-- Helper: http_post on a 429 head sleeps and recurses keeping the body,
dropping the query. -/
theorem http_post_cons_429 (r : Response) (rest : List Response) (url : String)
    (b q : Option String) (h : r.status = 429) :
    http_post (r :: rest) url b q
      = (Event.request { verb := Verb.POST, url := url, body := b, query := q }
          :: Event.sleep 1 :: (http_post rest url b none).1,
         (http_post rest url b none).2) := by
  simp [http_post, h]

/-- Helper: http_post on a non-429 head issues one request and returns the
parsed body. -/
theorem http_post_cons_ok (r : Response) (rest : List Response) (url : String)
    (b q : Option String) (h : ¬ r.status = 429) :
    http_post (r :: rest) url b q
      = ([Event.request { verb := Verb.POST, url := url, body := b, query := q }],
         some (RetValue.json r.body)) := by
  simp [http_post, h]

/-- Helper: http_delete on a 429 head recurses immediately (no sleep)
without the body. -/
theorem http_delete_cons_429 (r : Response) (rest : List Response) (url : String)
    (b : Option String) (h : r.status = 429) :
    http_delete (r :: rest) url b
      = (Event.request { verb := Verb.DELETE, url := url, body := b, query := none }
          :: (http_delete rest url none).1,
         (http_delete rest url none).2) := by
  simp [http_delete, h]

/-- Helper: http_delete on a non-429 head issues one request and returns
the raw response. -/
theorem http_delete_cons_ok (r : Response) (rest : List Response) (url : String)
    (b : Option String) (h : ¬ r.status = 429) :
    http_delete (r :: rest) url b
      = ([Event.request { verb := Verb.DELETE, url := url, body := b, query := none }],
         some (RetValue.raw r)) := by
  simp [http_delete, h]

/-- Helper: request count of an http_get trace. -/
theorem http_get_numRequests (srv : List Response) (url : String)
    (q : Option String) :
    numRequests (http_get srv url q).1 = min (leading429 srv + 1) srv.length := by
  induction srv generalizing q with
  | nil => rfl
  | cons r rest ih =>
    by_cases h : r.status = 429
    · rw [http_get_cons_429 r rest url q h]
      simp only [numRequests, leading429, h, if_true, List.length_cons]
      rw [ih none]
      omega
    · rw [http_get_cons_ok r rest url q h]
      simp only [numRequests, leading429, h, if_false, List.length_cons]
      omega

/-- Helper: request count of an http_put trace. -/
theorem http_put_numRequests (srv : List Response) (url : String)
    (b q : Option String) :
    numRequests (http_put srv url b q).1 = min (leading429 srv + 1) srv.length := by
  induction srv generalizing q with
  | nil => rfl
  | cons r rest ih =>
    by_cases h : r.status = 429
    · rw [http_put_cons_429 r rest url b q h]
      simp only [numRequests, leading429, h, if_true, List.length_cons]
      rw [ih none]
      omega
    · rw [http_put_cons_ok r rest url b q h]
      simp only [numRequests, leading429, h, if_false, List.length_cons]
      omega

/-- Helper: request count of an http_post trace. -/
theorem http_post_numRequests (srv : List Response) (url : String)
    (b q : Option String) :
    numRequests (http_post srv url b q).1 = min (leading429 srv + 1) srv.length := by
  induction srv generalizing q with
  | nil => rfl
  | cons r rest ih =>
    by_cases h : r.status = 429
    · rw [http_post_cons_429 r rest url b q h]
      simp only [numRequests, leading429, h, if_true, List.length_cons]
      rw [ih none]
      omega
    · rw [http_post_cons_ok r rest url b q h]
      simp only [numRequests, leading429, h, if_false, List.length_cons]
      omega

/-- Helper: prepending a sleep preserves everyRetrySlept. -/
theorem everyRetrySlept_sleep_cons (n : Nat) (t : List Event)
    (h : everyRetrySlept t = true) :
    everyRetrySlept (Event.sleep n :: t) = true := by
  cases t with
  | nil => rfl
  | cons y rest => simpa [everyRetrySlept] using h

/-- Helper: a request, a sleep, then a well-slept trace is well slept. -/
theorem everyRetrySlept_request_sleep_cons (a : Request) (n : Nat)
    (t : List Event) (h : everyRetrySlept t = true) :
    everyRetrySlept (Event.request a :: Event.sleep n :: t) = true := by
  have := everyRetrySlept_sleep_cons n t h
  simpa [everyRetrySlept] using this

/-- Helper: every retry of http_get is preceded by a sleep. -/
theorem http_get_everyRetrySlept (srv : List Response) (url : String)
    (q : Option String) :
    everyRetrySlept (http_get srv url q).1 = true := by
  induction srv generalizing q with
  | nil => rfl
  | cons r rest ih =>
    by_cases h : r.status = 429
    · rw [http_get_cons_429 r rest url q h]
      exact everyRetrySlept_request_sleep_cons _ 1 _ (ih none)
    · rw [http_get_cons_ok r rest url q h]
      rfl

/-- Helper: every retry of http_put is preceded by a sleep. -/
theorem http_put_everyRetrySlept (srv : List Response) (url : String)
    (b q : Option String) :
    everyRetrySlept (http_put srv url b q).1 = true := by
  induction srv generalizing q with
  | nil => rfl
  | cons r rest ih =>
    by_cases h : r.status = 429
    · rw [http_put_cons_429 r rest url b q h]
      exact everyRetrySlept_request_sleep_cons _ 1 _ (ih none)
    · rw [http_put_cons_ok r rest url b q h]
      rfl

/-- Helper: every retry of http_post is preceded by a sleep. -/
theorem http_post_everyRetrySlept (srv : List Response) (url : String)
    (b q : Option String) :
    everyRetrySlept (http_post srv url b q).1 = true := by
  induction srv generalizing q with
  | nil => rfl
  | cons r rest ih =>
    by_cases h : r.status = 429
    · rw [http_post_cons_429 r rest url b q h]
      exact everyRetrySlept_request_sleep_cons _ 1 _ (ih none)
    · rw [http_post_cons_ok r rest url b q h]
      rfl

/-- Helper: http_delete never sleeps. -/
theorem http_delete_numSleeps (srv : List Response) (url : String)
    (b : Option String) :
    numSleeps (http_delete srv url b).1 = 0 := by
  induction srv generalizing b with
  | nil => rfl
  | cons r rest ih =>
    by_cases h : r.status = 429
    · rw [http_delete_cons_429 r rest url b h]
      simpa [numSleeps] using ih none
    · rw [http_delete_cons_ok r rest url b h]
      rfl

/-- Helper: the value http_get returns is the parsed body of the first
non-429 response. -/
theorem http_get_result (srv : List Response) (url : String)
    (q : Option String) :
    (http_get srv url q).2 = (firstNon429 srv).map fun r => RetValue.json r.body := by
  induction srv generalizing q with
  | nil => rfl
  | cons r rest ih =>
    by_cases h : r.status = 429
    · rw [http_get_cons_429 r rest url q h]
      simp [firstNon429, h, ih none]
    · rw [http_get_cons_ok r rest url q h]
      simp [firstNon429, h]

/-- Helper: the value http_put returns is the parsed body of the first
non-429 response. -/
theorem http_put_result (srv : List Response) (url : String)
    (b q : Option String) :
    (http_put srv url b q).2 = (firstNon429 srv).map fun r => RetValue.json r.body := by
  induction srv generalizing q with
  | nil => rfl
  | cons r rest ih =>
    by_cases h : r.status = 429
    · rw [http_put_cons_429 r rest url b q h]
      simp [firstNon429, h, ih none]
    · rw [http_put_cons_ok r rest url b q h]
      simp [firstNon429, h]

/-- Helper: the value http_post returns is the parsed body of the first
non-429 response. -/
theorem http_post_result (srv : List Response) (url : String)
    (b q : Option String) :
    (http_post srv url b q).2 = (firstNon429 srv).map fun r => RetValue.json r.body := by
  induction srv generalizing q with
  | nil => rfl
  | cons r rest ih =>
    by_cases h : r.status = 429
    · rw [http_post_cons_429 r rest url b q h]
      simp [firstNon429, h, ih none]
    · rw [http_post_cons_ok r rest url b q h]
      simp [firstNon429, h]

/-- Helper: the value http_delete returns is the raw first non-429
response, not a parsed body. -/
theorem http_delete_result (srv : List Response) (url : String)
    (b : Option String) :
    (http_delete srv url b).2 = (firstNon429 srv).map RetValue.raw := by
  induction srv generalizing b with
  | nil => rfl
  | cons r rest ih =>
    by_cases h : r.status = 429
    · rw [http_delete_cons_429 r rest url b h]
      simp [firstNon429, h, ih none]
    · rw [http_delete_cons_ok r rest url b h]
      simp [firstNon429, h]

/-- Helper: every request of an http_get call made without a query has no
query, the recursive retries included. -/
theorem http_get_query_none (srv : List Response) (url : String) :
    ∀ req ∈ requestsOf (http_get srv url none).1, req.query = none := by
  induction srv with
  | nil => intro req hmem; simp [http_get, requestsOf] at hmem
  | cons r rest ih =>
    intro req hmem
    by_cases h : r.status = 429
    · rw [http_get_cons_429 r rest url none h] at hmem
      simp only [requestsOf, List.mem_cons] at hmem
      rcases hmem with h1 | h1
      · simp [h1]
      · exact ih req h1
    · rw [http_get_cons_ok r rest url none h] at hmem
      simp only [requestsOf, List.mem_singleton] at hmem
      simp [hmem]

/-- Helper: every request of an http_put call made without a query has no
query, the recursive retries included. -/
theorem http_put_query_none (srv : List Response) (url : String)
    (b : Option String) :
    ∀ req ∈ requestsOf (http_put srv url b none).1, req.query = none := by
  induction srv with
  | nil => intro req hmem; simp [http_put, requestsOf] at hmem
  | cons r rest ih =>
    intro req hmem
    by_cases h : r.status = 429
    · rw [http_put_cons_429 r rest url b none h] at hmem
      simp only [requestsOf, List.mem_cons] at hmem
      rcases hmem with h1 | h1
      · simp [h1]
      · exact ih req h1
    · rw [http_put_cons_ok r rest url b none h] at hmem
      simp only [requestsOf, List.mem_singleton] at hmem
      simp [hmem]

/-- Helper: every request of an http_post call made without a query has no
query, the recursive retries included. -/
theorem http_post_query_none (srv : List Response) (url : String)
    (b : Option String) :
    ∀ req ∈ requestsOf (http_post srv url b none).1, req.query = none := by
  induction srv with
  | nil => intro req hmem; simp [http_post, requestsOf] at hmem
  | cons r rest ih =>
    intro req hmem
    by_cases h : r.status = 429
    · rw [http_post_cons_429 r rest url b none h] at hmem
      simp only [requestsOf, List.mem_cons] at hmem
      rcases hmem with h1 | h1
      · simp [h1]
      · exact ih req h1
    · rw [http_post_cons_ok r rest url b none h] at hmem
      simp only [requestsOf, List.mem_singleton] at hmem
      simp [hmem]

/-- Helper: every request of an http_delete call made without a body has
no body, the recursive retries included. -/
theorem http_delete_body_none (srv : List Response) (url : String) :
    ∀ req ∈ requestsOf (http_delete srv url none).1, req.body = none := by
  induction srv with
  | nil => intro req hmem; simp [http_delete, requestsOf] at hmem
  | cons r rest ih =>
    intro req hmem
    by_cases h : r.status = 429
    · rw [http_delete_cons_429 r rest url none h] at hmem
      simp only [requestsOf, List.mem_cons] at hmem
      rcases hmem with h1 | h1
      · simp [h1]
      · exact ih req h1
    · rw [http_delete_cons_ok r rest url none h] at hmem
      simp only [requestsOf, List.mem_singleton] at hmem
      simp [hmem]

/-- C1 (corrected): a 429 makes http_get, http_put and http_post retry
after the fixed sleep, and the retry is itself subject to the same rule,
so requests repeat until the first non-429 response: the number of
requests is one more than the number of leading 429 responses (capped by
the number of responses the server ever gives), hence exactly two when
only the first response is a 429 but unbounded in general. -/
theorem retry_counts_until_non429 :
    (∀ (srv : List Response) (url : String) (q : Option String),
      numRequests (http_get srv url q).1 = min (leading429 srv + 1) srv.length) ∧
    (∀ (srv : List Response) (url : String) (b q : Option String),
      numRequests (http_put srv url b q).1 = min (leading429 srv + 1) srv.length) ∧
    (∀ (srv : List Response) (url : String) (b q : Option String),
      numRequests (http_post srv url b q).1 = min (leading429 srv + 1) srv.length) :=
  ⟨http_get_numRequests, http_put_numRequests, http_post_numRequests⟩

/-- C1 counterexample: two consecutive 429 responses followed by a 200
make a single http_get call issue three HTTP requests, refuting the
bound of at most two requests whatever statuses the server returns. -/
theorem http_get_three_requests_on_two_429s :
    numRequests (http_get [r429, r429, r200] "u" none).1 = 3 ∧
    ¬ numRequests (http_get [r429, r429, r200] "u" none).1 ≤ 2 :=
  ⟨by decide, by decide⟩

/-- C3 (corrected): every retry of http_get, http_put and http_post is
immediately preceded by a blocking sleep, but http_delete retries on 429
with no sleep at all. -/
theorem retries_slept_except_delete :
    (∀ (srv : List Response) (url : String) (q : Option String),
      everyRetrySlept (http_get srv url q).1 = true) ∧
    (∀ (srv : List Response) (url : String) (b q : Option String),
      everyRetrySlept (http_put srv url b q).1 = true) ∧
    (∀ (srv : List Response) (url : String) (b q : Option String),
      everyRetrySlept (http_post srv url b q).1 = true) ∧
    (∀ (srv : List Response) (url : String) (b : Option String),
      numSleeps (http_delete srv url b).1 = 0) :=
  ⟨http_get_everyRetrySlept, http_put_everyRetrySlept,
   http_post_everyRetrySlept, http_delete_numSleeps⟩

/-- C3 counterexample: on a 429 followed by a 200, http_delete issues a
retry (two requests) with zero sleeps, and its trace has a request not
preceded by a sleep. -/
theorem http_delete_retry_without_sleep :
    numRequests (http_delete [r429, r200] "u" none).1 = 2 ∧
    numSleeps (http_delete [r429, r200] "u" none).1 = 0 ∧
    everyRetrySlept (http_delete [r429, r200] "u" none).1 = false :=
  ⟨by decide, by decide, by decide⟩

/-- C6 (corrected): http_get, http_put and http_post hand back the parsed
JSON body of the first non-429 response, but http_delete hands back the
raw response object instead of its parsed body. -/
theorem responses_parsed_except_delete :
    (∀ (srv : List Response) (url : String) (q : Option String),
      (http_get srv url q).2 = (firstNon429 srv).map fun r => RetValue.json r.body) ∧
    (∀ (srv : List Response) (url : String) (b q : Option String),
      (http_put srv url b q).2 = (firstNon429 srv).map fun r => RetValue.json r.body) ∧
    (∀ (srv : List Response) (url : String) (b q : Option String),
      (http_post srv url b q).2 = (firstNon429 srv).map fun r => RetValue.json r.body) ∧
    (∀ (srv : List Response) (url : String) (b : Option String),
      (http_delete srv url b).2 = (firstNon429 srv).map RetValue.raw) :=
  ⟨http_get_result, http_put_result, http_post_result, http_delete_result⟩

/-- C6 counterexample: AddressResource.delete, called with the required
scope and answered 200, returns the raw response object, which is not a
parsed JSON body. -/
theorem delete_returns_raw_response :
    (AddressResource.delete
        { scopes := some ["write_customers"], allowed_endpoints := [] }
        [r200] "42").2.2
      = Except.ok (some (RetValue.raw r200)) ∧
    RetValue.isJsonBody (RetValue.raw r200) = false :=
  ⟨by rfl, rfl⟩

/-- C7 (confirmed): on any first response whose status is not 429
(4xx and 5xx included), http_get, http_put and http_post issue exactly
one request, neither retrying nor raising, and return the parsed body of
that response exactly as for a success. -/
theorem non429_passthrough :
    ∀ (r : Response) (rest : List Response) (url : String) (b q : Option String),
      r.status ≠ 429 →
      http_get (r :: rest) url q
        = ([Event.request { verb := Verb.GET, url := url, body := none, query := q }],
           some (RetValue.json r.body)) ∧
      http_put (r :: rest) url b q
        = ([Event.request { verb := Verb.PUT, url := url, body := b, query := q }],
           some (RetValue.json r.body)) ∧
      http_post (r :: rest) url b q
        = ([Event.request { verb := Verb.POST, url := url, body := b, query := q }],
           some (RetValue.json r.body)) := by
  intro r rest url b q h
  exact ⟨http_get_cons_ok r rest url q h, http_put_cons_ok r rest url b q h,
    http_post_cons_ok r rest url b q h⟩

/-- C7 witness: a 500 response is passed through by http_get with one
request and its body returned. -/
theorem non429_passthrough_witness :
    http_get [r500] "u" none
      = ([Event.request { verb := Verb.GET, url := "u", body := none, query := none }],
         some (RetValue.json r500.body)) :=
  (non429_passthrough r500 [] "u" none none (by decide)).1

/-- C8 (confirmed): in any http_get, http_put or http_post trace, every
request after the first is issued without query parameters, and in any
http_delete trace every request after the first is issued without a
body: a rate-limit retry does not repeat the original request exactly. -/
theorem retry_drops_query_and_body :
    (∀ (srv : List Response) (url : String) (q : Option String),
      ∀ req ∈ (requestsOf (http_get srv url q).1).tail, req.query = none) ∧
    (∀ (srv : List Response) (url : String) (b q : Option String),
      ∀ req ∈ (requestsOf (http_put srv url b q).1).tail, req.query = none) ∧
    (∀ (srv : List Response) (url : String) (b q : Option String),
      ∀ req ∈ (requestsOf (http_post srv url b q).1).tail, req.query = none) ∧
    (∀ (srv : List Response) (url : String) (b : Option String),
      ∀ req ∈ (requestsOf (http_delete srv url b).1).tail, req.body = none) := by
  refine ⟨?_, ?_, ?_, ?_⟩
  · intro srv url q req hmem
    cases srv with
    | nil => simp [http_get, requestsOf] at hmem
    | cons r rest =>
      by_cases h : r.status = 429
      · rw [http_get_cons_429 r rest url q h] at hmem
        simp only [requestsOf, List.tail_cons] at hmem
        exact http_get_query_none rest url req hmem
      · rw [http_get_cons_ok r rest url q h] at hmem
        simp [requestsOf] at hmem
  · intro srv url b q req hmem
    cases srv with
    | nil => simp [http_put, requestsOf] at hmem
    | cons r rest =>
      by_cases h : r.status = 429
      · rw [http_put_cons_429 r rest url b q h] at hmem
        simp only [requestsOf, List.tail_cons] at hmem
        exact http_put_query_none rest url b req hmem
      · rw [http_put_cons_ok r rest url b q h] at hmem
        simp [requestsOf] at hmem
  · intro srv url b q req hmem
    cases srv with
    | nil => simp [http_post, requestsOf] at hmem
    | cons r rest =>
      by_cases h : r.status = 429
      · rw [http_post_cons_429 r rest url b q h] at hmem
        simp only [requestsOf, List.tail_cons] at hmem
        exact http_post_query_none rest url b req hmem
      · rw [http_post_cons_ok r rest url b q h] at hmem
        simp [requestsOf] at hmem
  · intro srv url b req hmem
    cases srv with
    | nil => simp [http_delete, requestsOf] at hmem
    | cons r rest =>
      by_cases h : r.status = 429
      · rw [http_delete_cons_429 r rest url b h] at hmem
        simp only [requestsOf, List.tail_cons] at hmem
        exact http_delete_body_none rest url req hmem
      · rw [http_delete_cons_ok r rest url b h] at hmem
        simp [requestsOf] at hmem

/-- C8 witness: the second request of an http_get call that sent a query
and was answered 429 then 200 carries no query parameters. -/
theorem retry_drops_query_witness :
    ({ verb := Verb.GET, url := "u", body := none, query := none } : Request).query
      = none :=
  retry_drops_query_and_body.1 [r429, r200] "u" (some "limit=5")
    { verb := Verb.GET, url := "u", body := none, query := none } (by decide)

/-- C5 (corrected): every public method of AddressResource,
ProductResource, DiscountResource and AsyncBatchResource except
AddressResource.validate invokes check_scopes on its declared endpoint
and required scopes first and, when the check errors, propagates the
error with an empty trace, so the HTTP request is not issued;
AddressResource.validate instead issues its POST unconditionally,
with no scope check at all. -/
theorem methods_guarded_except_validate :
    (∀ (self : RechargeResource) (srv : List Response) (cid body : String)
        (s' : RechargeResource) (e : ScopeError),
      check_scopes self "POST /customers/:customer_id/addresses" ["write_customers"]
          = (s', some e) →
      AddressResource.create self srv cid body = (s', [], Except.error e)) ∧
    (∀ (self : RechargeResource) (srv : List Response) (i : String)
        (s' : RechargeResource) (e : ScopeError),
      check_scopes self ("GET " ++ AddressResource.object_list_key ++ "/:address_id")
          ["read_customers"] = (s', some e) →
      AddressResource.get self srv i = (s', [], Except.error e)) ∧
    (∀ (self : RechargeResource) (srv : List Response) (i : String)
        (body : Option String) (s' : RechargeResource) (e : ScopeError),
      check_scopes self ("PUT " ++ AddressResource.object_list_key ++ "/:id")
          ["write_customers"] = (s', some e) →
      AddressResource.update self srv i body = (s', [], Except.error e)) ∧
    (∀ (self : RechargeResource) (srv : List Response) (i : String)
        (s' : RechargeResource) (e : ScopeError),
      check_scopes self ("DELETE " ++ AddressResource.object_list_key ++ "/:address_id")
          ["write_customers"] = (s', some e) →
      AddressResource.delete self srv i = (s', [], Except.error e)) ∧
    (∀ (self : RechargeResource) (srv : List Response) (cid : String)
        (q : Option String) (s' : RechargeResource) (e : ScopeError),
      check_scopes self ("GET /customers/:customer_id/" ++ AddressResource.object_list_key)
          ["read_customers"] = (s', some e) →
      AddressResource.list self srv cid q = (s', [], Except.error e)) ∧
    (∀ (self : RechargeResource) (srv : List Response) (q : Option String)
        (s' : RechargeResource) (e : ScopeError),
      check_scopes self "GET /addresses/count" ["read_customers"] = (s', some e) →
      AddressResource.count self srv q = (s', [], Except.error e)) ∧
    (∀ (self : RechargeResource) (srv : List Response) (i body : String)
        (s' : RechargeResource) (e : ScopeError),
      check_scopes self "POST /addresses/:address_id/apply_discount"
          ["write_discounts"] = (s', some e) →
      AddressResource.apply_discount self srv i body = (s', [], Except.error e)) ∧
    (∀ (self : RechargeResource) (srv : List Response) (i : String)
        (s' : RechargeResource) (e : ScopeError),
      check_scopes self "POST /addresses/:address_id/remove_discount"
          ["write_discounts"] = (s', some e) →
      AddressResource.remove_discount self srv i = (s', [], Except.error e)) ∧
    (∀ (self : RechargeResource) (srv : List Response) (body : String)
        (s' : RechargeResource) (e : ScopeError),
      check_scopes self "POST /products" ["write_products"] = (s', some e) →
      ProductResource.create self srv body = (s', [], Except.error e)) ∧
    (∀ (self : RechargeResource) (srv : List Response) (i : String)
        (s' : RechargeResource) (e : ScopeError),
      check_scopes self ("GET /products/" ++ i) ["read_products"] = (s', some e) →
      ProductResource.get self srv i = (s', [], Except.error e)) ∧
    (∀ (self : RechargeResource) (srv : List Response) (i body : String)
        (s' : RechargeResource) (e : ScopeError),
      check_scopes self ("PUT /products/" ++ i) ["write_products"] = (s', some e) →
      ProductResource.update self srv i body = (s', [], Except.error e)) ∧
    (∀ (self : RechargeResource) (srv : List Response) (i : String)
        (s' : RechargeResource) (e : ScopeError),
      check_scopes self ("DELETE /products/" ++ i) ["write_products"] = (s', some e) →
      ProductResource.delete self srv i = (s', [], Except.error e)) ∧
    (∀ (self : RechargeResource) (srv : List Response) (q : String)
        (s' : RechargeResource) (e : ScopeError),
      check_scopes self "GET /products" ["read_products"] = (s', some e) →
      ProductResource.list self srv q = (s', [], Except.error e)) ∧
    (∀ (self : RechargeResource) (srv : List Response)
        (s' : RechargeResource) (e : ScopeError),
      check_scopes self "GET /products/count" ["read_products"] = (s', some e) →
      ProductResource.count self srv = (s', [], Except.error e)) ∧
    (∀ (self : RechargeResource) (srv : List Response) (body : String)
        (s' : RechargeResource) (e : ScopeError),
      check_scopes self ("POST /" ++ DiscountResource.object_list_key)
          ["write_discounts"] = (s', some e) →
      DiscountResource.create self srv body = (s', [], Except.error e)) ∧
    (∀ (self : RechargeResource) (srv : List Response) (i : String)
        (s' : RechargeResource) (e : ScopeError),
      check_scopes self ("GET /" ++ DiscountResource.object_list_key ++ "/:discount_id")
          ["read_discounts"] = (s', some e) →
      DiscountResource.get self srv i = (s', [], Except.error e)) ∧
    (∀ (self : RechargeResource) (srv : List Response) (i body : String)
        (s' : RechargeResource) (e : ScopeError),
      check_scopes self ("PUT /" ++ DiscountResource.object_list_key ++ "/:discount_id")
          ["write_discounts"] = (s', some e) →
      DiscountResource.update self srv i body = (s', [], Except.error e)) ∧
    (∀ (self : RechargeResource) (srv : List Response) (i : String)
        (s' : RechargeResource) (e : ScopeError),
      check_scopes self ("DELETE /" ++ DiscountResource.object_list_key ++ "/:discount_id")
          ["write_discounts"] = (s', some e) →
      DiscountResource.delete self srv i = (s', [], Except.error e)) ∧
    (∀ (self : RechargeResource) (srv : List Response) (q : Option String)
        (s' : RechargeResource) (e : ScopeError),
      check_scopes self ("GET /" ++ DiscountResource.object_list_key)
          ["read_discounts"] = (s', some e) →
      DiscountResource.list self srv q = (s', [], Except.error e)) ∧
    (∀ (self : RechargeResource) (srv : List Response) (body : String)
        (s' : RechargeResource) (e : ScopeError),
      check_scopes self ("POST /" ++ AsyncBatchResource.object_list_key)
          ["write_batches"] = (s', some e) →
      AsyncBatchResource.create self srv body = (s', [], Except.error e)) ∧
    (∀ (self : RechargeResource) (srv : List Response) (i body : String)
        (s' : RechargeResource) (e : ScopeError),
      check_scopes self ("POST /" ++ AsyncBatchResource.object_list_key ++ "/:batch_id/tasks")
          ["write_batches"] = (s', some e) →
      AsyncBatchResource.create_task self srv i body = (s', [], Except.error e)) ∧
    (∀ (self : RechargeResource) (srv : List Response) (i : String)
        (s' : RechargeResource) (e : ScopeError),
      check_scopes self ("GET /" ++ AsyncBatchResource.object_list_key ++ "/:batch_id")
          ["read_batches"] = (s', some e) →
      AsyncBatchResource.get self srv i = (s', [], Except.error e)) ∧
    (∀ (self : RechargeResource) (srv : List Response)
        (s' : RechargeResource) (e : ScopeError),
      check_scopes self ("GET /" ++ AsyncBatchResource.object_list_key)
          ["read_batches"] = (s', some e) →
      AsyncBatchResource.list self srv = (s', [], Except.error e)) ∧
    (∀ (self : RechargeResource) (srv : List Response) (i : String)
        (s' : RechargeResource) (e : ScopeError),
      check_scopes self ("GET /" ++ AsyncBatchResource.object_list_key ++ "/:batch_id/tasks")
          ["read_batches"] = (s', some e) →
      AsyncBatchResource.list_tasks self srv i = (s', [], Except.error e)) ∧
    (∀ (self : RechargeResource) (srv : List Response) (i : String)
        (s' : RechargeResource) (e : ScopeError),
      check_scopes self ("POST /" ++ AsyncBatchResource.object_list_key ++ "/:batch_id/process")
          ["write_batches"] = (s', some e) →
      AsyncBatchResource.process self srv i = (s', [], Except.error e)) ∧
    (∀ (self : RechargeResource) (srv : List Response) (body : String),
      AddressResource.validate self srv body
        = (self,
           (http_post srv (AddressResource.url ++ "/validate_address") (some body) none).1,
           Except.ok
             (http_post srv (AddressResource.url ++ "/validate_address") (some body) none).2)) :=
  ⟨fun _ _ _ _ _ _ h => guarded_error h,
   fun _ _ _ _ _ h => guarded_error h,
   fun _ _ _ _ _ _ h => guarded_error h,
   fun _ _ _ _ _ h => guarded_error h,
   fun _ _ _ _ _ _ h => guarded_error h,
   fun _ _ _ _ _ h => guarded_error h,
   fun _ _ _ _ _ _ h => guarded_error h,
   fun _ _ _ _ _ h => guarded_error h,
   fun _ _ _ _ _ h => guarded_error h,
   fun _ _ _ _ _ h => guarded_error h,
   fun _ _ _ _ _ _ h => guarded_error h,
   fun _ _ _ _ _ h => guarded_error h,
   fun _ _ _ _ _ h => guarded_error h,
   fun _ _ _ _ h => guarded_error h,
   fun _ _ _ _ _ h => guarded_error h,
   fun _ _ _ _ _ h => guarded_error h,
   fun _ _ _ _ _ _ h => guarded_error h,
   fun _ _ _ _ _ h => guarded_error h,
   fun _ _ _ _ _ h => guarded_error h,
   fun _ _ _ _ _ h => guarded_error h,
   fun _ _ _ _ _ _ h => guarded_error h,
   fun _ _ _ _ _ h => guarded_error h,
   fun _ _ _ _ h => guarded_error h,
   fun _ _ _ _ _ h => guarded_error h,
   fun _ _ _ _ _ h => guarded_error h,
   fun _ _ _ => rfl⟩

/-- C5 witness: with scopes None the scope check of AddressResource.create
fails, the method returns that error and issues no request. -/
theorem methods_guarded_witness :
    AddressResource.create { scopes := none, allowed_endpoints := [] } [r200] "1" "b"
      = ({ scopes := none, allowed_endpoints := [] }, [],
         Except.error ScopeError.noScopesFound) :=
  methods_guarded_except_validate.1
    { scopes := none, allowed_endpoints := [] } [r200] "1" "b"
    { scopes := none, allowed_endpoints := [] } ScopeError.noScopesFound (by decide)

/-- C5 counterexample: AddressResource.validate, on a state whose token
has no scopes at all (every scope check on it errors, even with an empty
required list), still issues its HTTP request and returns the parsed
body. -/
theorem validate_skips_scope_check :
    (AddressResource.validate { scopes := none, allowed_endpoints := [] }
        [r200] "b").2.1 ≠ [] ∧
    (AddressResource.validate { scopes := none, allowed_endpoints := [] }
        [r200] "b").2.2 = Except.ok (some (RetValue.json "ok")) ∧
    (check_scopes { scopes := none, allowed_endpoints := [] }
        "POST /addresses/validate_address" []).2 = some ScopeError.noScopesFound :=
  ⟨by decide, by rfl, by rfl⟩
